import Mathlib

/-!
Verification development for the local-llms repository.

The definitions below are a shallow embedding of the two subsystems the
specification covers: the health-gated process supervisor
(src/local_llms/core.py: LocalLLMManager.start / stop / get_running_model)
and the resumable download pipeline (src/local_llms/download.py:
download_file / download_and_extract_model).  External effects (the health
endpoint, the spawned process, the filesystem holding the pickle record)
are passed in explicitly as environment values; the control flow of each
Lean function mirrors the corresponding Python function line by line.
-/

namespace LocalLLMs

/-- Contents of the pickled running_service.pkl record:
hash, port and pid, as written by LocalLLMManager dump_running_service. -/
structure ServiceInfo where
  hash : String
  port : Nat
  pid : Nat
deriving DecidableEq

/-- Observable side effects of the supervisor, in program order. -/
inductive Event where
  | stopCalled
  | terminated (pid : Nat)
  | killed (pid : Nat)
  | recordDeleted
  | recordWritten (info : ServiceInfo)
  | spawned (pid : Nat)
deriving DecidableEq

/-- Environment of one stop() call: whether psutil.pid_exists(pid) holds,
whether the process exits within the 5 second wait, and what
process.is_running() would report after a wait that returned. -/
structure StopEnv where
  pidExists : Bool
  exitsWithinWait : Bool
  runningAfterWait : Bool
deriving DecidableEq

/-- LocalLLMManager.stop (core.py lines 149-188).  Returns the boolean
result, the record file state afterwards, and the emitted events.
When the record is absent the function returns False at once.  When the
pid exists, process.terminate() is sent and process.wait(timeout=5) is
called; psutil raises TimeoutExpired when the process is still alive
after the wait, which the generic except handler turns into a False
return with the record left in place and no kill issued.  When the wait
returns, the is_running check decides whether kill() is sent, and the
record file is removed before returning True. -/
def stop (record : Option ServiceInfo) (env : StopEnv) :
    Bool × Option ServiceInfo × List Event :=
  match record with
  | none => (false, none, [])
  | some info =>
    if env.pidExists then
      if env.exitsWithinWait then
        if env.runningAfterWait then
          (true, none, [Event.terminated info.pid, Event.killed info.pid,
            Event.recordDeleted])
        else
          (true, none, [Event.terminated info.pid, Event.recordDeleted])
      else
        (false, some info, [Event.terminated info.pid])
    else
      (true, none, [Event.recordDeleted])

/-- Outcome of one iteration of the health polling loop in start
(core.py lines 76-101): a 200 response whose JSON status field is ok, a
response that is not yet ok (non-200 or a different JSON status), a
ConnectionError together with the psutil.pid_exists check on the spawned
process, or any other exception. -/
inductive PollResult where
  | ok200ok
  | respNotOk
  | connError (pidAlive : Bool)
  | otherError
deriving DecidableEq

/-- The health polling loop of start: break with success on the first ok
response, return False when a ConnectionError finds the spawned pid dead,
keep polling otherwise; an exhausted list is the overall timeout. -/
def healthLoop : List PollResult → Bool
  | [] => false
  | p :: rest =>
    match p with
    | PollResult.ok200ok => true
    | PollResult.connError false => false
    | _ => healthLoop rest

/-- Environment of one start() call: whether os.path.exists holds for the
downloaded model path, the pid subprocess.Popen returns, the sequence of
health poll outcomes, and the environment of the nested stop() call. -/
structure StartEnv where
  modelPathExists : Bool
  spawnPid : Nat
  polls : List PollResult
  stopEnv : StopEnv
deriving DecidableEq

inductive StartOutcome where
  | valueError
  | failure
  | success
deriving DecidableEq

/-- Result of start: outcome, record file state afterwards, events, and
whether the polling loop of this invocation observed an ok response. -/
structure StartResult where
  outcome : StartOutcome
  record : Option ServiceInfo
  events : List Event
  sawOk : Bool
deriving DecidableEq

/-- Tail of start after the record check (core.py lines 49-105): the
os.path.exists check on the model path, the spawn, the polling loop, and
on success the dump_running_service call writing the new record. -/
def startSpawn (record : Option ServiceInfo) (hash : String) (port : Nat)
    (env : StartEnv) (ev0 : List Event) : StartResult :=
  if env.modelPathExists then
    if healthLoop env.polls then
      ⟨StartOutcome.success, some ⟨hash, port, env.spawnPid⟩,
        ev0 ++ [Event.spawned env.spawnPid,
          Event.recordWritten ⟨hash, port, env.spawnPid⟩], true⟩
    else
      ⟨StartOutcome.failure, record, ev0 ++ [Event.spawned env.spawnPid], false⟩
  else
    ⟨StartOutcome.failure, record, ev0, false⟩

/-- LocalLLMManager.start (core.py lines 19-115).  An empty hash raises
ValueError.  When a record exists with the same hash the function returns
True at once, consulting nothing else.  When a record exists with a
different hash, stop() is invoked first and its result is ignored.  The
function then proceeds to the spawn and polling phase. -/
def start (record : Option ServiceInfo) (hash : String) (port : Nat)
    (env : StartEnv) : StartResult :=
  if hash = "" then ⟨StartOutcome.valueError, record, [], false⟩
  else
    match record with
    | some info =>
      if info.hash = hash then ⟨StartOutcome.success, record, [], false⟩
      else
        let s := stop record env.stopEnv
        startSpawn s.2.1 hash port env (Event.stopCalled :: s.2.2)
    | none => startSpawn none hash port env []

/-- Outcome of the single health request made by get_running_model:
either a response with a status code and the truth of the JSON status
field being ok, or a requests exception (unreachable endpoint, dead
process, timeout). -/
inductive HealthResult where
  | respond (code : Nat) (okStatus : Bool)
  | requestError
deriving DecidableEq

/-- LocalLLMManager.get_running_model (core.py lines 124-147).  Returns
the reported model and the record file state afterwards, or an error when
the function raises.  With no record it returns None.  With a record and
a non-ok response the record file is removed and the function falls off
the end, returning None.  With a record and a healthy response the record
is kept and the function still falls off the end, returning None: no
branch returns the hash.  When the request raises, evaluating the except
clause itself raises AttributeError, because pickle.UnpickleError is not
a name that exists (the module defines UnpicklingError); the record is
not removed and the exception escapes to the caller. -/
def getRunningModel (record : Option ServiceInfo) (health : HealthResult) :
    Except String (Option String × Option ServiceInfo) :=
  match record with
  | none => Except.ok (none, none)
  | some info =>
    match health with
    | HealthResult.respond code okStatus =>
      if code ≠ 200 ∨ okStatus = false then
        Except.ok (none, none)
      else
        Except.ok (none, some info)
    | HealthResult.requestError =>
      Except.error "AttributeError: module pickle has no attribute UnpickleError"

/-- Cross-invocation system state: the persisted record together with a
history flag recording whether any health request ever returned an ok
status. -/
structure SysState where
  record : Option ServiceInfo
  everOk : Bool
deriving DecidableEq

/-- One start() invocation at the system level. -/
def startSys (s : SysState) (hash : String) (port : Nat) (env : StartEnv) :
    StartOutcome × SysState × List Event :=
  let r := start s.record hash port env
  (r.outcome, ⟨r.record, s.everOk || r.sawOk⟩, r.events)

/-- One stop() invocation at the system level. -/
def stopSys (s : SysState) (env : StopEnv) : Bool × SysState × List Event :=
  let r := stop s.record env
  (r.1, ⟨r.2.1, s.everOk⟩, r.2.2)

/-- Whether the single health request of get_running_model observed an ok
response. -/
def observedOk (record : Option ServiceInfo) (health : HealthResult) : Bool :=
  match record, health with
  | some _, HealthResult.respond code okStatus => decide (code = 200) && okStatus
  | _, _ => false

/-- One status()/get_running_model invocation at the system level; when
the function raises, the state is unchanged. -/
def statusSys (s : SysState) (health : HealthResult) : SysState :=
  match getRunningModel s.record health with
  | Except.ok r => ⟨r.2, s.everOk || observedOk s.record health⟩
  | Except.error _ => s

/-- States reachable from a fresh working directory (no record, no ok
response ever observed) by any sequence of start, stop and status
invocations. -/
inductive Reachable : SysState → Prop where
  | init : Reachable ⟨none, false⟩
  | stepStart (s : SysState) (hash : String) (port : Nat) (env : StartEnv) :
      Reachable s → Reachable (startSys s hash port env).2.1
  | stepStop (s : SysState) (env : StopEnv) :
      Reachable s → Reachable (stopSys s env).2.1
  | stepStatus (s : SysState) (health : HealthResult) :
      Reachable s → Reachable (statusSys s health)

/-- Scanning the poll trace, a ConnectionError that finds the spawned pid
dead occurs strictly before any ok response: the spawned process exited
before the first ok response. -/
def diesBeforeOk : List PollResult → Bool
  | [] => false
  | p :: rest =>
    match p with
    | PollResult.ok200ok => false
    | PollResult.connError false => true
    | _ => diesBeforeOk rest

/-! Shallow embedding of src/local_llms/download.py. -/

/-- Constant SLEEP_TIME from download.py. -/
def SLEEP_TIME : Nat := 5

/-- Constant MAX_ATTEMPTS from download.py. -/
def MAX_ATTEMPTS : Nat := 3

/-- Decisions taken by the resume logic at the head of one download
attempt (download.py lines 73-141): the effective local size after the
hash cache check, whether the stale local file was deleted, whether the
file counted as already fully downloaded, the offset named in a Range
header when one is sent, and whether the file is then opened in append
mode rather than write mode. -/
structure ResumeDecision where
  effectiveExisting : Nat
  discarded : Bool
  alreadyComplete : Bool
  rangeFrom : Option Nat
  appendMode : Bool
deriving DecidableEq

/-- Resume logic of download_file, lines 73-141 of download.py.  The
local size is reset to zero and the file deleted when a nonempty local
file has no hash cache or a mismatched one.  Then: equal nonzero size
means already fully downloaded; smaller nonzero size yields a Range
request from that offset; every other case (zero size, or a local file
larger than the server total) sends a plain full request, and the file
mode is append exactly when the effective size is nonzero. -/
def resumePhase (existingSize : Nat) (cachedHash : Option String)
    (hashValue : String) (totalSize : Nat) : ResumeDecision :=
  let ed : Nat × Bool :=
    if existingSize > 0 then
      match cachedHash with
      | some c => if c = hashValue then (existingSize, false) else (0, true)
      | none => (0, true)
    else (existingSize, false)
  let eff := ed.1
  let discarded := ed.2
  if eff ≠ 0 ∧ eff = totalSize then
    ⟨eff, discarded, true, none, false⟩
  else if eff ≠ 0 ∧ eff < totalSize then
    ⟨eff, discarded, false, some eff, true⟩
  else
    ⟨eff, discarded, false, none, decide (eff ≠ 0)⟩

/-- Restatement of the resume behaviour in the words of the amended
claim, for comparison with resumePhase: a range request from offset S is
sent only when a matching hash cache validates the nonzero local bytes
and S is strictly below the server total; a nonzero local file without a
matching cache is discarded and the full object is requested from byte
zero; and a server total smaller than the validated local bytes does not
discard the local file: the full object is requested and the file is
opened in append mode. -/
def resumeSpec (S : Nat) (cache : Option String) (h : String)
    (T : Nat) : ResumeDecision :=
  if S > 0 ∧ cache = some h then
    if S = T then ⟨S, false, true, none, false⟩
    else if S < T then ⟨S, false, false, some S, true⟩
    else ⟨S, false, false, none, true⟩
  else if S > 0 then ⟨0, true, false, none, false⟩
  else ⟨0, false, false, none, false⟩

/-- Post-stream verification of download_file, lines 175-194 of
download.py: first the sha256 hexdigest of the final file is compared to
the hash value taken from the manifest (the same string that is used as
the gateway content identifier in the request URL); a mismatch returns
failure at once.  Then the final on-disk size is compared to the server
reported total; a mismatch returns failure.  Only then is the download
reported successful. -/
def verifyPhase (fileDigest : String) (hashValue : String)
    (finalSize : Nat) (totalSize : Nat) : Bool :=
  if fileDigest ≠ hashValue then false
  else if finalSize ≠ totalSize then false
  else true

/-- How one attempt of the download_file body ends: a True return, a
False return (hash or size verification failed, returned without retry),
one of the httpx exceptions named in the first except clause
(ConnectError, ReadTimeout, ConnectTimeout), or any other exception. -/
inductive AttemptOutcome where
  | ok
  | hardFail
  | transientErr
  | otherErr
deriving DecidableEq

/-- Retry loop of download_file (lines 71-209): attempts are numbered
from one up to MAX_ATTEMPTS; a transient httpx failure sleeps
SLEEP_TIME * 2 ^ (attempt - 1) seconds before the next attempt, any
other exception sleeps SLEEP_TIME; no sleep follows the last attempt and
the function then returns False.  The result is the returned boolean
together with the list of sleep durations in order. -/
def downloadFileGo (outcomes : Nat → AttemptOutcome) :
    Nat → Nat → Bool × List Nat
  | _, 0 => (false, [])
  | a, Nat.succ rem =>
    match outcomes a with
    | AttemptOutcome.ok => (true, [])
    | AttemptOutcome.hardFail => (false, [])
    | AttemptOutcome.transientErr =>
      if a < MAX_ATTEMPTS then
        let r := downloadFileGo outcomes (a + 1) rem
        (r.1, SLEEP_TIME * 2 ^ (a - 1) :: r.2)
      else
        downloadFileGo outcomes (a + 1) rem
    | AttemptOutcome.otherErr =>
      if a < MAX_ATTEMPTS then
        let r := downloadFileGo outcomes (a + 1) rem
        (r.1, SLEEP_TIME :: r.2)
      else
        downloadFileGo outcomes (a + 1) rem

/-- download_file as a function of the per-attempt outcomes. -/
def downloadFile (outcomes : Nat → AttemptOutcome) : Bool × List Nat :=
  downloadFileGo outcomes 1 MAX_ATTEMPTS

/-- Aggregation step of download_and_extract_model (download.py lines
266-281) over the per-part results (success flag and file name as
returned by download_file): each failed part is named in a warning; the
count of successes is compared to the number of files from the manifest
and a mismatch raises RuntimeError, caught by the outer handler so that
the function returns None; only when every part succeeded does the flow
continue to extraction and return the model path. -/
def downloadAndExtract (filecoinHash : String)
    (results : List (Bool × String)) (numFiles : Nat) :
    Option String × List String :=
  let warned := (results.filter (fun r => !r.1)).map (fun r => r.2)
  let successCount := (results.filter (fun r => r.1)).length
  if successCount ≠ numFiles then (none, warned)
  else (some (filecoinHash ++ ".gguf"), warned)

/-- Top level names defined or bound at module level by
src/local_llms/download.py, in source order: imports, constants and
function definitions.  These are the names that can be imported from
local_llms.download. -/
def downloadModuleNames : List String :=
  ["argparse", "requests", "os", "time", "shutil", "subprocess", "logging",
   "tqdm", "ThreadPoolExecutor", "as_completed", "Path", "Dict", "Tuple",
   "Optional", "httpx", "hashlib",
   "BASE_URL", "DEFAULT_OUTPUT_DIR", "SLEEP_TIME", "MAX_ATTEMPTS",
   "CHUNK_SIZE", "POSTFIX_MODEL_PATH",
   "setup_logging", "check_downloaded_model", "download_file",
   "download_and_extract_model"]

/-- Name that line 10 of src/local_llms/core.py imports from
local_llms.download. -/
def coreImportName : String := "download_model_from_filecoin"

/-- Whether the module level import of core.py succeeds: the imported
name must be bound in the download module. -/
def coreModuleLoads : Bool := downloadModuleNames.contains coreImportName

/-- LocalLLMManager.start as written: the import at line 10 of core.py
runs when the module is loaded, before any method can be called, so when
it fails no invocation of start can proceed to the body. -/
def startAsWritten (record : Option ServiceInfo) (hash : String)
    (port : Nat) (env : StartEnv) : Except String StartResult :=
  if coreModuleLoads then Except.ok (start record hash port env)
  else Except.error
    "ImportError: cannot import name download_model_from_filecoin"

/-- Start environment in which the spawned process dies at the first
poll: download succeeded, the spawn returns pid 7, and the single poll is
a ConnectionError finding the pid dead. -/
def env0 : StartEnv := ⟨true, 7, [PollResult.connError false], ⟨false, false, false⟩⟩

/-- Start environment in which every liveness signal is bad: the model
path is missing, there are no healthy polls, and the recorded pid does
not exist. -/
def envDead : StartEnv := ⟨false, 0, [], ⟨false, false, false⟩⟩

/-- Start environment in which everything succeeds: the model path
exists, the spawn returns pid 77, the first poll returns ok, and the
nested stop finds a live process that exits within the wait. -/
def envGood : StartEnv := ⟨true, 77, [PollResult.ok200ok], ⟨true, true, false⟩⟩

/-! Helper lemmas about the supervisor embedding. -/

lemma stop_record_cases (record : Option ServiceInfo) (env : StopEnv) :
    (stop record env).2.1 = none ∨ (stop record env).2.1 = record := by
  cases record with
  | none => simp [stop]
  | some info =>
    simp only [stop]
    split_ifs <;> simp

lemma stop_no_spawn (record : Option ServiceInfo) (env : StopEnv) (p : Nat) :
    Event.spawned p ∉ (stop record env).2.2 := by
  cases record with
  | none => simp [stop]
  | some info =>
    simp only [stop]
    split_ifs <;> simp

lemma stop_no_write (record : Option ServiceInfo) (env : StopEnv)
    (i : ServiceInfo) :
    Event.recordWritten i ∉ (stop record env).2.2 := by
  cases record with
  | none => simp [stop]
  | some info =>
    simp only [stop]
    split_ifs <;> simp

lemma healthLoop_eq_false_of_dies (polls : List PollResult)
    (h : diesBeforeOk polls = true) : healthLoop polls = false := by
  induction polls with
  | nil => simp [diesBeforeOk] at h
  | cons p rest ih =>
    cases p with
    | ok200ok => simp [diesBeforeOk] at h
    | respNotOk =>
      simp only [diesBeforeOk] at h
      simpa [healthLoop] using ih h
    | connError alive =>
      cases alive with
      | false => simp [healthLoop]
      | true =>
        simp only [diesBeforeOk] at h
        simpa [healthLoop] using ih h
    | otherError =>
      simp only [diesBeforeOk] at h
      simpa [healthLoop] using ih h

lemma startSpawn_success_iff (record : Option ServiceInfo) (h : String)
    (p : Nat) (env : StartEnv) (ev0 : List Event) :
    (startSpawn record h p env ev0).outcome = StartOutcome.success ↔
      env.modelPathExists = true ∧ healthLoop env.polls = true := by
  simp only [startSpawn]
  split_ifs <;> simp_all

lemma startSpawn_record_cases (record : Option ServiceInfo) (h : String)
    (p : Nat) (env : StartEnv) (ev0 : List Event) :
    (startSpawn record h p env ev0).record = record ∨
      (startSpawn record h p env ev0).sawOk = true := by
  simp only [startSpawn]
  split_ifs <;> simp

lemma start_eq_empty (record : Option ServiceInfo) (h : String) (p : Nat)
    (env : StartEnv) (h1 : h = "") :
    start record h p env = ⟨StartOutcome.valueError, record, [], false⟩ := by
  simp [start, h1]

lemma start_eq_none (h : String) (p : Nat) (env : StartEnv)
    (h1 : ¬ h = "") :
    start none h p env = startSpawn none h p env [] := by
  simp [start, h1]

lemma start_eq_same (info : ServiceInfo) (h : String) (p : Nat)
    (env : StartEnv) (h1 : ¬ h = "") (h2 : info.hash = h) :
    start (some info) h p env =
      ⟨StartOutcome.success, some info, [], false⟩ := by
  simp [start, h1, h2]

lemma start_eq_diff (info : ServiceInfo) (h : String) (p : Nat)
    (env : StartEnv) (h1 : ¬ h = "") (h2 : ¬ info.hash = h) :
    start (some info) h p env =
      startSpawn (stop (some info) env.stopEnv).2.1 h p env
        (Event.stopCalled :: (stop (some info) env.stopEnv).2.2) := by
  simp [start, h1, h2]

lemma start_record_cases (record : Option ServiceInfo) (h : String)
    (p : Nat) (env : StartEnv) :
    (start record h p env).record ≠ none →
      record ≠ none ∨ (start record h p env).sawOk = true := by
  intro hne
  by_cases h1 : h = ""
  · rw [start_eq_empty record h p env h1] at hne
    exact Or.inl hne
  · cases record with
    | some info => exact Or.inl (by simp)
    | none =>
      rw [start_eq_none h p env h1] at hne ⊢
      rcases startSpawn_record_cases none h p env [] with hc | hc
      · rw [hc] at hne
        exact absurd rfl hne
      · exact Or.inr hc

lemma start_success_cases (record : Option ServiceInfo) (h : String)
    (p : Nat) (env : StartEnv) :
    (start record h p env).outcome = StartOutcome.success →
      record ≠ none ∨ (start record h p env).sawOk = true := by
  intro hs
  by_cases h1 : h = ""
  · rw [start_eq_empty record h p env h1] at hs
    simp at hs
  · cases record with
    | some info => exact Or.inl (by simp)
    | none =>
      rw [start_eq_none h p env h1] at hs ⊢
      rw [startSpawn_success_iff] at hs
      right
      simp [startSpawn, hs.1, hs.2]

lemma startSpawn_failure_of_loop_false (record : Option ServiceInfo)
    (h : String) (p : Nat) (env : StartEnv) (ev0 : List Event)
    (hl : healthLoop env.polls = false) :
    (startSpawn record h p env ev0).outcome = StartOutcome.failure := by
  simp only [startSpawn, hl]
  split_ifs <;> simp_all

lemma start_dies_failure (record : Option ServiceInfo) (h : String)
    (p : Nat) (env : StartEnv)
    (hd : diesBeforeOk env.polls = true)
    (hm : Event.spawned env.spawnPid ∈ (start record h p env).events) :
    (start record h p env).outcome = StartOutcome.failure := by
  have hl := healthLoop_eq_false_of_dies env.polls hd
  by_cases h1 : h = ""
  · rw [start_eq_empty record h p env h1] at hm
    simp at hm
  · cases record with
    | none =>
      rw [start_eq_none h p env h1]
      exact startSpawn_failure_of_loop_false none h p env [] hl
    | some info =>
      by_cases h2 : info.hash = h
      · rw [start_eq_same info h p env h1 h2] at hm
        simp at hm
      · rw [start_eq_diff info h p env h1 h2]
        exact startSpawn_failure_of_loop_false _ h p env _ hl

lemma startSpawn_failure_events (record : Option ServiceInfo) (h : String)
    (p : Nat) (env : StartEnv) (ev0 : List Event) :
    (startSpawn record h p env ev0).outcome = StartOutcome.failure →
      (startSpawn record h p env ev0).events = ev0 ∨
      (startSpawn record h p env ev0).events =
        ev0 ++ [Event.spawned env.spawnPid] := by
  simp only [startSpawn]
  split_ifs <;> simp

lemma start_failure_no_write (record : Option ServiceInfo) (h : String)
    (p : Nat) (env : StartEnv) (i : ServiceInfo) :
    (start record h p env).outcome = StartOutcome.failure →
      Event.recordWritten i ∉ (start record h p env).events := by
  intro hf hm
  by_cases h1 : h = ""
  · rw [start_eq_empty record h p env h1] at hm
    simp at hm
  · cases record with
    | none =>
      rw [start_eq_none h p env h1] at hf hm
      rcases startSpawn_failure_events none h p env [] hf with he | he <;>
        rw [he] at hm <;> simp at hm
    | some info =>
      by_cases h2 : info.hash = h
      · rw [start_eq_same info h p env h1 h2] at hm
        simp at hm
      · rw [start_eq_diff info h p env h1 h2] at hf hm
        rcases startSpawn_failure_events _ h p env _ hf with he | he <;>
          rw [he] at hm
        · simp only [List.mem_cons] at hm
          rcases hm with hm | hm
          · exact absurd hm (by simp)
          · exact stop_no_write _ _ i hm
        · simp only [List.cons_append, List.mem_cons, List.mem_append,
            List.mem_singleton] at hm
          rcases hm with hm | hm | hm
          · exact absurd hm (by simp)
          · exact stop_no_write _ _ i hm
          · exact absurd hm (by simp)

lemma statusSys_record_cases (s : SysState) (health : HealthResult) :
    (statusSys s health).record = none ∨
      (statusSys s health).record = s.record := by
  rcases hrec : s.record with _ | info
  · cases health <;> simp [statusSys, getRunningModel, hrec]
  · cases health with
    | respond code okStatus =>
      by_cases hc : code ≠ 200 ∨ okStatus = false
      · simp [statusSys, getRunningModel, hrec, hc]
      · simp [statusSys, getRunningModel, hrec, hc]
    | requestError => simp [statusSys, getRunningModel, hrec]

lemma statusSys_everOk_mono (s : SysState) (health : HealthResult)
    (h : s.everOk = true) : (statusSys s health).everOk = true := by
  rcases hrec : s.record with _ | info
  · cases health <;> simp [statusSys, getRunningModel, hrec, h]
  · cases health with
    | respond code okStatus =>
      by_cases hc : code ≠ 200 ∨ okStatus = false
      · simp [statusSys, getRunningModel, hrec, hc, h]
      · simp [statusSys, getRunningModel, hrec, hc, h]
    | requestError => simp [statusSys, getRunningModel, hrec, h]

/-- Invariant of reachable states: a persisted record can only exist when
some health request has returned an ok status at some point, because the
only writer of the record is the success path of start, which is guarded
by the polling loop observing an ok response. -/
lemma reachable_everOk {s : SysState} (hr : Reachable s) :
    s.record ≠ none → s.everOk = true := by
  induction hr with
  | init => simp
  | stepStart s hash port env _ ih =>
    intro hne
    simp only [startSys] at hne ⊢
    rcases start_record_cases s.record hash port env hne with hc | hc
    · simp [ih hc]
    · simp [hc]
  | stepStop s env _ ih =>
    intro hne
    simp only [stopSys] at hne ⊢
    rcases stop_record_cases s.record env with hc | hc
    · rw [hc] at hne
      exact absurd rfl hne
    · rw [hc] at hne
      exact ih hne
  | stepStatus s health _ ih =>
    intro hne
    rcases statusSys_record_cases s health with hc | hc
    · rw [hc] at hne
      exact absurd rfl hne
    · rw [hc] at hne
      exact statusSys_everOk_mono s health (ih hne)

lemma startSpawn_events_head (record : Option ServiceInfo) (h : String)
    (p : Nat) (env : StartEnv) (e : Event) (l : List Event) :
    (startSpawn record h p env (e :: l)).events.head? = some e := by
  simp only [startSpawn]
  split_ifs <;> simp

lemma startSpawn_success_record (record : Option ServiceInfo) (h : String)
    (p : Nat) (env : StartEnv) (ev0 : List Event) :
    (startSpawn record h p env ev0).outcome = StartOutcome.success →
      (startSpawn record h p env ev0).record = some ⟨h, p, env.spawnPid⟩ := by
  simp only [startSpawn]
  split_ifs <;> simp

lemma filter_length_eq_iff (l : List (Bool × String)) :
    (l.filter (fun r => r.1)).length = l.length ↔
      ∀ r ∈ l, r.1 = true := by
  induction l with
  | nil => simp
  | cons x xs ih =>
    cases hx : x.1 with
    | true => simp [List.filter_cons, hx, ih]
    | false =>
      simp only [List.filter_cons, hx, Bool.false_eq_true, if_false,
        List.length_cons]
      constructor
      · intro hl
        have hle := List.length_filter_le (fun r : Bool × String => r.1) xs
        omega
      · intro hall
        exact absurd (hall x (by simp)) (by simp [hx])

/-! Claim theorems. -/

/-- C1: in any reachable state, when the health endpoint has never
returned an ok status (neither before this invocation nor during it),
start does not return success; when the spawned process exits before the
first ok response, start returns failure; and whenever start returns
failure, no persisted service record is written. -/
theorem start_health_gating (s : SysState) (hash : String) (port : Nat)
    (env : StartEnv) (hreach : Reachable s) :
    ((startSys s hash port env).2.1.everOk = false →
      (startSys s hash port env).1 ≠ StartOutcome.success) ∧
    (diesBeforeOk env.polls = true →
      Event.spawned env.spawnPid ∈ (startSys s hash port env).2.2 →
      (startSys s hash port env).1 = StartOutcome.failure) ∧
    ((startSys s hash port env).1 = StartOutcome.failure →
      ∀ info, Event.recordWritten info ∉ (startSys s hash port env).2.2) := by
  refine ⟨?_, ?_, ?_⟩
  · intro hok hs
    simp only [startSys] at hok hs
    rcases start_success_cases s.record hash port env hs with hc | hc
    · have he := reachable_everOk hreach hc
      simp [he] at hok
    · simp [hc] at hok
  · intro hd hm
    simp only [startSys] at hm ⊢
    exact start_dies_failure s.record hash port env hd hm
  · intro hf info
    simp only [startSys] at hf ⊢
    exact start_failure_no_write s.record hash port env info hf

/-- C1 witness: from the initial state, with a single poll that finds the
spawned pid dead, start fails and writes no record. -/
theorem start_health_gating_witness :
    (startSys ⟨none, false⟩ "H" 8080 env0).1 ≠ StartOutcome.success ∧
    (startSys ⟨none, false⟩ "H" 8080 env0).1 = StartOutcome.failure ∧
    Event.recordWritten ⟨"H", 8080, 7⟩ ∉ (startSys ⟨none, false⟩ "H" 8080 env0).2.2 := by
  have h := start_health_gating ⟨none, false⟩ "H" 8080 env0 Reachable.init
  refine ⟨h.1 (by decide), h.2.1 (by decide) (by decide), ?_⟩
  exact h.2.2 (h.2.1 (by decide) (by decide)) ⟨"H", 8080, 7⟩

/-- C2 counterexample: start(H2, 8081) while a record for H1 exists
succeeds and the record afterwards names H2, but status() on the
resulting record reports None, not H2: get_running_model has no branch
returning the hash, so the claim that status() afterwards reports only
H2 is false on the code. -/
theorem single_service_status_counterexample :
    (startSys ⟨some ⟨"H1", 8080, 42⟩, true⟩ "H2" 8081 envGood).1 =
      StartOutcome.success ∧
    (startSys ⟨some ⟨"H1", 8080, 42⟩, true⟩ "H2" 8081 envGood).2.1.record =
      some ⟨"H2", 8081, 77⟩ ∧
    getRunningModel (some ⟨"H2", 8081, 77⟩) (HealthResult.respond 200 true) =
      Except.ok (none, some ⟨"H2", 8081, 77⟩) :=
  ⟨rfl, rfl, rfl⟩

/-- C2 amended: start(H2, P2) while a persisted record exists for a
different identifier H1 invokes stop() on the H1 record as its first
effect, before the H2 process is spawned, and when start succeeds the
persisted record afterwards names only H2 with the new port and pid;
status() however returns None rather than the H2 identifier, because
get_running_model never returns the hash. -/
theorem single_service (s : SysState) (h2 : String) (p2 : Nat)
    (env : StartEnv) (info : ServiceInfo) (hrec : s.record = some info)
    (hne : ¬ info.hash = h2) (hh : ¬ h2 = "") :
    (startSys s h2 p2 env).2.2.head? = some Event.stopCalled ∧
    ((startSys s h2 p2 env).1 = StartOutcome.success →
      (startSys s h2 p2 env).2.1.record = some ⟨h2, p2, env.spawnPid⟩) ∧
    ((startSys s h2 p2 env).1 = StartOutcome.success →
      getRunningModel (startSys s h2 p2 env).2.1.record
          (HealthResult.respond 200 true) =
        Except.ok (none, some ⟨h2, p2, env.spawnPid⟩)) := by
  have hst : start s.record h2 p2 env =
      startSpawn (stop (some info) env.stopEnv).2.1 h2 p2 env
        (Event.stopCalled :: (stop (some info) env.stopEnv).2.2) := by
    rw [hrec]
    exact start_eq_diff info h2 p2 env hh hne
  refine ⟨?_, ?_, ?_⟩
  · simp only [startSys, hst]
    exact startSpawn_events_head _ h2 p2 env _ _
  · intro hs
    simp only [startSys, hst] at hs ⊢
    exact startSpawn_success_record _ h2 p2 env _ hs
  · intro hs
    simp only [startSys, hst] at hs ⊢
    rw [startSpawn_success_record _ h2 p2 env _ hs]
    simp [getRunningModel]

/-- C2 witness: concrete successful takeover from H1 to H2. -/
theorem single_service_witness :
    (startSys ⟨some ⟨"H1", 8080, 42⟩, true⟩ "H2B" 9090 envGood).2.2.head? =
      some Event.stopCalled ∧
    (startSys ⟨some ⟨"H1", 8080, 42⟩, true⟩ "H2B" 9090 envGood).2.1.record =
      some ⟨"H2B", 9090, 77⟩ := by
  have h := single_service ⟨some ⟨"H1", 8080, 42⟩, true⟩ "H2B" 9090 envGood
    ⟨"H1", 8080, 42⟩ rfl (by decide) (by decide)
  exact ⟨h.1, h.2.1 rfl⟩

/-- C3: behaviour of get_running_model on a present record.  With a
healthy 200 ok response the function keeps the record but reports None
instead of the identifier (there is no return statement for the hash);
when the health request raises, evaluating the except clause raises
AttributeError (pickle.UnpickleError does not exist), so the stale
record is not deleted and the exception escapes; only the non-ok
response path deletes the record and reports not running, and the
no-record path reports not running. -/
theorem get_running_model_behavior :
    getRunningModel (some ⟨"H1", 8080, 42⟩) (HealthResult.respond 200 true) =
      Except.ok (none, some ⟨"H1", 8080, 42⟩) ∧
    getRunningModel (some ⟨"H1", 8080, 42⟩) HealthResult.requestError =
      Except.error
        "AttributeError: module pickle has no attribute UnpickleError" ∧
    getRunningModel (some ⟨"H1", 8080, 42⟩) (HealthResult.respond 200 false) =
      Except.ok (none, none) ∧
    getRunningModel none (HealthResult.respond 200 true) =
      Except.ok (none, none) :=
  ⟨rfl, rfl, rfl, rfl⟩

/-- C4 counterexample: with a persisted record for the same identifier,
start returns success even in an environment where the model path is
missing, no poll would succeed and the recorded pid is dead, and it does
so with an empty event list: no process or health check is performed
before returning, so the claim that the record-is-still-good condition
is actually checked is false on the code. -/
theorem idempotent_start_no_check :
    startSys ⟨some ⟨"H1", 8080, 42⟩, true⟩ "H1" 8080 envDead =
      (StartOutcome.success, ⟨some ⟨"H1", 8080, 42⟩, true⟩, []) :=
  rfl

/-- C4 amended: when a persisted record exists for the same identifier,
a second start returns success without spawning a second process and
without consulting the process or the health endpoint at all: the state
is unchanged and no event is emitted, whatever the environment says. -/
theorem idempotent_start (s : SysState) (hash : String) (port : Nat)
    (env : StartEnv) (info : ServiceInfo) (hrec : s.record = some info)
    (hh : info.hash = hash) (hne : ¬ hash = "") :
    startSys s hash port env = (StartOutcome.success, s, []) := by
  have hst : start s.record hash port env =
      ⟨StartOutcome.success, some info, [], false⟩ := by
    rw [hrec]
    exact start_eq_same info hash port env hne hh
  simp only [startSys, hst, Bool.or_false]
  rw [← hrec]

/-- C4 witness: concrete repeated start on a healthy record. -/
theorem idempotent_start_witness :
    startSys ⟨some ⟨"H2", 9090, 5⟩, true⟩ "H2" 9090 env0 =
      (StartOutcome.success, ⟨some ⟨"H2", 9090, 5⟩, true⟩, []) :=
  idempotent_start ⟨some ⟨"H2", 9090, 5⟩, true⟩ "H2" 9090 env0
    ⟨"H2", 9090, 5⟩ rfl rfl (by decide)

/-- C5 counterexample: a local file of 100 bytes with a matching hash
cache against a server-reported total of 50 bytes is not discarded: the
effective size stays 100, no Range header is sent, and the file is
opened in append mode, so the claim that such a partial is discarded and
the download restarted from byte zero is false on the code. -/
theorem resume_no_discard_on_smaller_total :
    (resumePhase 100 (some "bafyPart") "bafyPart" 50).discarded = false ∧
    (resumePhase 100 (some "bafyPart") "bafyPart" 50).effectiveExisting = 100 ∧
    (resumePhase 100 (some "bafyPart") "bafyPart" 50).rangeFrom = none ∧
    (resumePhase 100 (some "bafyPart") "bafyPart" 50).appendMode = true :=
  ⟨rfl, rfl, rfl, rfl⟩

/-- C5 amended: the resume decision of download_file coincides with the
following case split: nonzero local bytes validated by a matching hash
cache yield a Range request from that offset only when strictly below
the server total, equal sizes count as already complete, and a server
total smaller than the validated local bytes does not discard the local
file but sends a full request in append mode; nonzero local bytes
without a matching cache are discarded and the full object is requested
from byte zero; an empty local file gets a plain full request. -/
theorem resume_logic (S : Nat) (cache : Option String) (h : String)
    (T : Nat) : resumePhase S cache h T = resumeSpec S cache h T := by
  rcases cache with _ | c
  · by_cases hS : S > 0
    · have hS0 : S ≠ 0 := by omega
      simp [resumePhase, resumeSpec, hS]
    · have hS0 : S = 0 := by omega
      subst hS0
      simp [resumePhase, resumeSpec]
  · by_cases hcm : c = h
    · subst hcm
      by_cases hS : S > 0
      · have hS0 : S ≠ 0 := by omega
        by_cases hST : S = T
        · subst hST
          simp [resumePhase, resumeSpec, hS, hS0]
        · by_cases hlt : S < T
          · simp [resumePhase, resumeSpec, hS, hST, hS0, hlt]
          · simp [resumePhase, resumeSpec, hS, hST, hS0, hlt]
      · have hS0 : S = 0 := by omega
        subst hS0
        simp [resumePhase, resumeSpec]
    · by_cases hS : S > 0
      · simp [resumePhase, resumeSpec, hS, hcm]
      · have hS0 : S = 0 := by omega
        subst hS0
        simp [resumePhase, resumeSpec]

/-- C6: the completion check of download_file first compares the sha256
hexdigest of the file to the hash value from the manifest, the very
string used as the gateway content identifier in the URL, and rejects on
mismatch even when the final on-disk size equals the server-reported
total; a size match alone is therefore not sufficient for success,
contrary to the claim that no additional check may reject such a part.
A sha256 hexdigest (64 lowercase hex characters) is never equal to a
gateway content identifier, so every freshly streamed part is rejected. -/
theorem verify_rejects_size_matching_part :
    verifyPhase
      "e3b0c44298fc1c149afbf4c8996fb92427ae41e4649b934ca495991b7852b855"
      "QmS4ustL54uo8FzR9455qaxZwuMiUhyvMcX9Ba8nUH4uVv" 100 100 = false ∧
    verifyPhase "QmS4ustL54uo8FzR9455qaxZwuMiUhyvMcX9Ba8nUH4uVv"
      "QmS4ustL54uo8FzR9455qaxZwuMiUhyvMcX9Ba8nUH4uVv" 100 100 = true ∧
    verifyPhase "QmS4ustL54uo8FzR9455qaxZwuMiUhyvMcX9Ba8nUH4uVv"
      "QmS4ustL54uo8FzR9455qaxZwuMiUhyvMcX9Ba8nUH4uVv" 99 100 = false :=
  ⟨rfl, rfl, rfl⟩

/-- C7: a part whose attempts all fail transiently is retried exactly up
to MAX_ATTEMPTS with sleeps of SLEEP_TIME doubling per attempt and then
reported failed; the aggregate returns a model path exactly when every
part succeeded; and every failed part is named in the warnings. -/
theorem download_retry_aggregate (hash : String)
    (results : List (Bool × String)) :
    downloadFile (fun _ => AttemptOutcome.transientErr) =
      (false, [SLEEP_TIME * 2 ^ 0, SLEEP_TIME * 2 ^ 1]) ∧
    ((downloadAndExtract hash results results.length).1.isSome = true ↔
      ∀ r ∈ results, r.1 = true) ∧
    (∀ r ∈ results, r.1 = false →
      r.2 ∈ (downloadAndExtract hash results results.length).2) := by
  refine ⟨rfl, ?_, ?_⟩
  · have hiff : (downloadAndExtract hash results results.length).1.isSome = true ↔
        (results.filter (fun r => r.1)).length = results.length := by
      simp only [downloadAndExtract]
      by_cases hc : (results.filter (fun r => r.1)).length = results.length
      · simp [hc]
      · simp [hc]
    exact hiff.trans (filter_length_eq_iff results)
  · intro r hr hfalse
    simp only [downloadAndExtract, apply_ite Prod.snd, ite_self]
    simp only [List.mem_map, List.mem_filter]
    exact ⟨r, ⟨hr, by simp [hfalse]⟩, rfl⟩

/-- C7 witness: concrete aggregate over one successful and one failed
part: no model path is produced and the failed part is named. -/
theorem download_retry_aggregate_witness :
    (downloadAndExtract "Qm" [(true, "a"), (false, "b")]
      [(true, "a"), (false, "b")].length).1 = none ∧
    "b" ∈ (downloadAndExtract "Qm" [(true, "a"), (false, "b")]
      [(true, "a"), (false, "b")].length).2 := by
  have h := download_retry_aggregate "Qm" [(true, "a"), (false, "b")]
  exact ⟨rfl, h.2.2 (false, "b") (by simp) rfl⟩

/-- C8: on a record whose live process does not exit within the
5 second wait, psutil raises TimeoutExpired out of process.wait before
the is_running check, the generic handler returns False, no kill is
sent and the record survives — contrary to the claim that stop
escalates to a forceful kill and removes the record unconditionally.
When the process does exit within the wait, or the pid is already dead,
the record is removed and stop returns success. -/
theorem stop_stuck_process_behavior :
    stop (some ⟨"H1", 8080, 42⟩) ⟨true, false, false⟩ =
      (false, some ⟨"H1", 8080, 42⟩, [Event.terminated 42]) ∧
    stop (some ⟨"H1", 8080, 42⟩) ⟨true, true, false⟩ =
      (true, none, [Event.terminated 42, Event.recordDeleted]) ∧
    stop (some ⟨"H1", 8080, 42⟩) ⟨false, false, false⟩ =
      (true, none, [Event.recordDeleted]) :=
  ⟨rfl, rfl, rfl⟩

/-- C9: stop with no persisted record returns failure with no side
effects: the record state is unchanged and no event is emitted. -/
theorem stop_nothing_running (env : StopEnv) :
    stop none env = (false, none, []) :=
  rfl

/-- C10: the download module binds no name download_model_from_filecoin,
so the module-level import in core.py fails and, as written, no start
invocation for any argument tuple can reach the body of start. -/
theorem core_import_fails (record : Option ServiceInfo) (hash : String)
    (port : Nat) (env : StartEnv) :
    coreModuleLoads = false ∧
    startAsWritten record hash port env =
      Except.error
        "ImportError: cannot import name download_model_from_filecoin" := by
  have h : coreModuleLoads = false := by decide
  exact ⟨h, by simp [startAsWritten, h]⟩

end LocalLLMs
